import Mathlib

/-!
Verification development for prefect_kubernetes/credentials.py.

The module defines two classes:
* KubernetesClusterConfig  — stores a parsed kubeconfig document plus a context name
  (from_file, parse_yaml_config validator, get_api_client, configure_client);
* KubernetesCredentials    — resolves configuration through a three-tier fallback and
  yields a resource-specific client inside a scoped acquisition
  (get_client, get_resource_specific_client).

The embedding below models Python strings as Lean String, the parsed kubeconfig
document as a structure carrying exactly what the code inspects (the list of context
names, the current-context marker, and an opaque remainder), Python exceptions as an
explicit result type, and the effectful loaders of the external kubernetes_asyncio
library as state-passing functions that also emit an event trace recording which
loader ran, which connection objects were constructed, and which were closed.
-/

set_option maxRecDepth 10000

/-- Models a Python single-quote character (code point 39), used to build the
repr-style fragments of the error messages without writing the character inline. -/
def sglq : String := String.mk [Char.ofNat 39]

/-- Models Python repr for the plain identifier-like strings that appear in the
error messages of this module (no escaping is needed for such strings). -/
def pyRepr (s : String) : String := sglq ++ s ++ sglq

/-- Embedding of prefect.utilities.collections.listrepr: join the repr of each
element with the separator (the source passes sep explicitly or relies on the
default separator, a single space). -/
def listrepr (objs : List String) (sep : String) : String :=
  String.intercalate sep (objs.map pyRepr)

/-- The four resource-specific client classes imported from kubernetes_asyncio. -/
inductive K8sApiClass
  | appsV1Api
  | batchV1Api
  | coreV1Api
  | customObjectsApi
deriving DecidableEq, Repr

/-- Embedding of the module-level dict K8S_CLIENT_TYPES, as an association list in
the insertion order of the Python dict literal. -/
def K8S_CLIENT_TYPES : List (String × K8sApiClass) :=
  [("apps", .appsV1Api), ("batch", .batchV1Api),
   ("core", .coreV1Api), ("custom_objects", .customObjectsApi)]

/-- Model of a parsed kubeconfig document: the code only ever inspects the names of
the declared contexts and the current-context marker; everything else in the file is
carried opaquely in the blob field so that equality of documents is equality of the
entire parsed content. -/
structure KubeDoc where
  contexts : List String
  currentContext : String
  blob : String
deriving DecidableEq, Repr

/-! ### A concrete model of the external YAML codec

The spec treats YAML parsing as an external collaborator.  To state the round-trip
claim about parse_yaml_config executably we model serialization (yaml dump) and
parsing (yaml.safe_load) as a concrete, provably invertible, self-delimiting
character-level codec over KubeDoc. -/

/-- Tags every character of a string with a leading marker so that the encoding of
a string is self-delimiting inside a larger stream. -/
def tagChars : List Char → List Char
  | [] => []
  | c :: cs => '1' :: c :: tagChars cs

/-- Encodes a list of context names: each name is emitted with tagChars and closed
by a string terminator; the whole list is closed by a list terminator. -/
def encodeCtxs : List String → List Char
  | [] => ['0']
  | s :: ss => tagChars s.data ++ ('2' :: encodeCtxs ss)

/-- Encodes a single string as a self-delimiting character stream. -/
def encodeChars : List Char → List Char
  | [] => ['0']
  | c :: cs => '1' :: c :: encodeChars cs

/-- Decodes one string encoded by encodeChars, returning it together with the
remainder of the stream. -/
def decodeChars : List Char → Option (List Char × List Char)
  | [] => none
  | t :: rest =>
    if t = '0' then some ([], rest)
    else
      match rest with
      | [] => none
      | c :: rest2 =>
        match decodeChars rest2 with
        | none => none
        | some (s, r) => some (c :: s, r)

/-- Decodes a list of context names encoded by encodeCtxs, carrying the characters
of the string currently being read and the names read so far. -/
def decodeCtxsAux : List Char → List Char → List String → Option (List String × List Char)
  | [], _, _ => none
  | t :: rest, cur, acc =>
    if t = '0' then some (acc.reverse, rest)
    else if t = '2' then decodeCtxsAux rest [] (String.mk cur.reverse :: acc)
    else
      match rest with
      | [] => none
      | c :: rest2 => decodeCtxsAux rest2 (c :: cur) acc

/-- Model of serializing a document to a YAML string. -/
def yaml_dump (d : KubeDoc) : String :=
  String.mk (encodeCtxs d.contexts ++ encodeChars d.currentContext.data
    ++ encodeChars d.blob.data)

/-- Model of yaml.safe_load: parses a string produced by the codec back into a
document, returning none on malformed input (the Python function raises there). -/
def yaml_safe_load (s : String) : Option KubeDoc :=
  (decodeCtxsAux s.data [] []).bind fun p1 =>
    (decodeChars p1.2).bind fun p2 =>
      (decodeChars p2.2).bind fun p3 =>
        if p3.2 = [] then some ⟨p1.1, String.mk p2.1, String.mk p3.1⟩ else none

theorem string_mk_data (s : String) : String.mk s.data = s := rfl

theorem decodeChars_encodeChars (s r : List Char) :
    decodeChars (encodeChars s ++ r) = some (s, r) := by
  induction s with
  | nil =>
    show decodeChars ('0' :: r) = some ([], r)
    rw [decodeChars.eq_def]
    simp
  | cons c cs ih =>
    show decodeChars ('1' :: c :: (encodeChars cs ++ r)) = some (c :: cs, r)
    rw [decodeChars.eq_def]
    simp [ih]

theorem decodeCtxsAux_tagChars (s rest : List Char) (cur : List Char) (acc : List String) :
    decodeCtxsAux (tagChars s ++ rest) cur acc
      = decodeCtxsAux rest (s.reverse ++ cur) acc := by
  induction s generalizing cur with
  | nil => rfl
  | cons c cs ih =>
    show decodeCtxsAux ('1' :: c :: (tagChars cs ++ rest)) cur acc
        = decodeCtxsAux rest ((c :: cs).reverse ++ cur) acc
    rw [decodeCtxsAux.eq_def]
    simp [ih (c :: cur)]

theorem decodeCtxsAux_encodeCtxs (ss : List String) (r : List Char) (acc : List String) :
    decodeCtxsAux (encodeCtxs ss ++ r) [] acc = some (acc.reverse ++ ss, r) := by
  induction ss generalizing acc with
  | nil =>
    show decodeCtxsAux ('0' :: r) [] acc = some (acc.reverse ++ [], r)
    rw [decodeCtxsAux.eq_def]
    simp
  | cons s ss ih =>
    have h1 : encodeCtxs (s :: ss) ++ r
        = tagChars s.data ++ ('2' :: (encodeCtxs ss ++ r)) := by
      simp [encodeCtxs]
    rw [h1, decodeCtxsAux_tagChars]
    rw [decodeCtxsAux.eq_def]
    simp [ih, string_mk_data]

theorem decodeChars_encodeChars_nil (s : List Char) :
    decodeChars (encodeChars s) = some (s, []) := by
  have h := decodeChars_encodeChars s []
  simpa using h

theorem yaml_safe_load_yaml_dump (d : KubeDoc) : yaml_safe_load (yaml_dump d) = some d := by
  obtain ⟨cs, cc, bl⟩ := d
  have h1 : (yaml_dump ⟨cs, cc, bl⟩).data
      = encodeCtxs cs ++ (encodeChars cc.data ++ encodeChars bl.data) := by
    simp [yaml_dump]
  simp [yaml_safe_load, h1, decodeCtxsAux_encodeCtxs, decodeChars_encodeChars,
    decodeChars_encodeChars_nil, string_mk_data]

/-! ### Python exceptions, configuration state and the event trace -/

/-- Model of the Python exceptions relevant to this module: the kubernetes
ConfigException (the configuration-unavailable error the tier-2 fallback catches),
ValueError with its message, and an arbitrary other exception identified by a code
(standing for any unrelated error an external loader may raise). -/
inductive PyErr
  | configException
  | valueError (msg : String)
  | otherError (code : Nat)
deriving DecidableEq, Repr

/-- Model of a Python call that either returns a value or raises an exception. -/
inductive PyResult (α : Type)
  | ok (a : α)
  | raised (e : PyErr)
deriving DecidableEq, Repr

/-- What a kubernetes Configuration object currently holds: nothing (a freshly
constructed Configuration()), a kubeconfig dictionary with a context, the
in-cluster service identity, or the platform default kubeconfig file. -/
inductive ConfigSource
  | unloaded
  | fromDict (d : KubeDoc) (ctx : String)
  | incluster
  | kubeconfigDefault
deriving DecidableEq, Repr

/-- Model of a kubernetes_asyncio Configuration object (connection-local
configuration), identified by what has been loaded into it. -/
structure Configuration where
  source : ConfigSource
deriving DecidableEq, Repr

/-- Model of the process-wide kubernetes client configuration state: the
module-level default Configuration mutated by the loaders when they are invoked
without an explicit client_configuration argument. -/
structure GlobalState where
  defaultConfig : ConfigSource
deriving DecidableEq, Repr

/-- Model of the ambient environment the external loaders consult: the outcome of
load_incluster_config (ok, ConfigException when no in-cluster identity is present,
or any other error) and the outcome of load_kube_config on the platform default
kubeconfig file. -/
structure Env where
  incluster : PyResult Unit
  defaultKubeconfig : PyResult Unit
deriving DecidableEq, Repr

/-- Observable events of one client acquisition, in order: which loader ran and
into which configuration (connection-local or process-wide), construction of the
underlying ApiClient connection object, construction of the typed resource client,
and each call to ApiClient.close. -/
inductive Event
  | loadDictLocal (d : KubeDoc) (ctx : String)
  | loadInclusterLocal
  | loadKubeconfigLocal
  | loadDictGlobal (d : KubeDoc) (ctx : String)
  | loadInclusterGlobal
  | loadKubeconfigGlobal
  | apiClientConstructed
  | typedClientConstructed (c : K8sApiClass)
  | apiClientClosed
deriving DecidableEq, Repr

/-! ### The two classes of the module -/

/-- Embedding of the KubernetesClusterConfig block: the entire parsed contents of a
kubectl config file plus the name of the context to use.  Block-storage plumbing
(logo, documentation links, load-by-name) is external and not modelled. -/
structure KubernetesClusterConfig where
  config : KubeDoc
  context_name : String
deriving DecidableEq, Repr

/-- Embedding of the KubernetesCredentials block: an optional cluster config. -/
structure KubernetesCredentials where
  cluster_config : Option KubernetesClusterConfig
deriving DecidableEq, Repr

/-- Input accepted by the parse_yaml_config field validator: either an already
parsed mapping or a YAML-formatted string. -/
inductive RawConfigValue
  | str (s : String)
  | mapping (d : KubeDoc)
deriving DecidableEq, Repr

/-- Embedding of KubernetesClusterConfig.parse_yaml_config: a string input is
parsed with yaml.safe_load before storage, any other value is stored as-is. -/
def KubernetesClusterConfig.parse_yaml_config : RawConfigValue → Option KubeDoc
  | .str s => yaml_safe_load s
  | .mapping d => some d

/-- Models the context resolution performed by the kubernetes_asyncio dict loaders
(load_kube_config_from_dict and new_client_from_config_dict): the load succeeds
exactly when the requested context exists in the document and raises the
kubernetes ConfigException otherwise. -/
def dictLoadResult (d : KubeDoc) (ctx : String) : PyResult Unit :=
  if ctx ∈ d.contexts then .ok () else .raised .configException

/-- The message of the ValueError raised by from_file for an unknown context,
following the f-string in the source: the requested name in repr form, then the
valid names.  The Python code lists a set built from the contexts of the file; the
model lists the deduplicated context names (the same set). -/
def contextNotFoundMsg (requested : String) (valid : List String) : String :=
  "Context " ++ pyRepr requested ++ " not found. Specify one of: "
    ++ listrepr valid ", " ++ "."

/-- Embedding of KubernetesClusterConfig.from_file.  The path handling and the file
read are external effects; the file is modelled by its parsed document, from which
list_kube_config_contexts extracts the context names and the current-context
marker.  Note the source guards the override with a Python truthiness test
(if context_name:), so a None override and an empty-string override both fall back
to the current-context marker. -/
def KubernetesClusterConfig.from_file (d : KubeDoc) (context_name : Option String) :
    PyResult KubernetesClusterConfig :=
  let context_names := d.contexts.dedup
  if context_name.getD "" ≠ "" then
    let c := context_name.getD ""
    if c ∈ context_names then .ok ⟨d, c⟩
    else .raised (.valueError (contextNotFoundMsg c context_names))
  else .ok ⟨d, d.currentContext⟩

/-- Model of the ApiClient connection object: identified by the configuration it
was constructed against. -/
structure ApiClientModel where
  boundConfig : ConfigSource
deriving DecidableEq, Repr

/-- Models kubernetes_asyncio config.kube_config.new_client_from_config_dict: it
loads the document and context into a fresh, call-local Configuration and returns
a new ApiClient bound to it, never touching the process-wide default. -/
def new_client_from_config_dict (d : KubeDoc) (ctx : String) : PyResult ApiClientModel :=
  match dictLoadResult d ctx with
  | .ok _ => .ok ⟨.fromDict d ctx⟩
  | .raised e => .raised e

/-- Embedding of KubernetesClusterConfig.get_api_client: returns a standalone
client for the stored document and context via new_client_from_config_dict.  The
process-wide state is threaded through unchanged because the call constructs its
own local configuration. -/
def KubernetesClusterConfig.get_api_client (cc : KubernetesClusterConfig)
    (g : GlobalState) : PyResult ApiClientModel × GlobalState :=
  (new_client_from_config_dict cc.config cc.context_name, g)

/-- Embedding of KubernetesClusterConfig.configure_client: loads the stored
document and context into the process-wide configuration state via
load_kube_config_from_dict with no client_configuration argument.  The emitted
event records the attempt; on failure the raise propagates and the process-wide
state is unchanged. -/
def KubernetesClusterConfig.configure_client (cc : KubernetesClusterConfig)
    (g : GlobalState) : PyResult Unit × GlobalState × List Event :=
  match dictLoadResult cc.config cc.context_name with
  | .ok _ => (.ok (), ⟨.fromDict cc.config cc.context_name⟩,
      [.loadDictGlobal cc.config cc.context_name])
  | .raised e => (.raised e, g, [.loadDictGlobal cc.config cc.context_name])

/-- The message of the ValueError raised for an unrecognized client type,
following the f-string in the source (listrepr over the dict keys with its default
single-space separator). -/
def invalidClientTypeMsg (client_type : String) : String :=
  "Invalid client type provided " ++ pyRepr client_type ++ ". Must be one of "
    ++ listrepr (K8S_CLIENT_TYPES.map Prod.fst) " " ++ "."

/-- The three-tier resolution of get_resource_specific_client, acting on the
process-wide configuration state: tier 1 activates the stored cluster config via
configure_client; otherwise tier 2 attempts load_incluster_config and, only when
it raises ConfigException, tier 3 loads the default kubeconfig file — both without
a client_configuration argument, hence into the process-wide state. -/
def globalResolve (cred : KubernetesCredentials) (env : Env) (g : GlobalState) :
    PyResult Unit × GlobalState × List Event :=
  match cred.cluster_config with
  | some cc => cc.configure_client g
  | none =>
    match env.incluster with
    | .ok _ => (.ok (), ⟨.incluster⟩, [.loadInclusterGlobal])
    | .raised .configException =>
      match env.defaultKubeconfig with
      | .ok _ => (.ok (), ⟨.kubeconfigDefault⟩, [.loadInclusterGlobal, .loadKubeconfigGlobal])
      | .raised e => (.raised e, g, [.loadInclusterGlobal, .loadKubeconfigGlobal])
    | .raised e => (.raised e, g, [.loadInclusterGlobal])

/-- Embedding of KubernetesCredentials.get_resource_specific_client: runs the
three-tier resolution against the process-wide configuration state, then wraps the
supplied ApiClient in the typed client looked up in K8S_CLIENT_TYPES, converting
the KeyError of an unknown key into the ValueError of the source. -/
def KubernetesCredentials.get_resource_specific_client
    (cred : KubernetesCredentials) (env : Env) (client_type : String)
    (g : GlobalState) : PyResult K8sApiClass × GlobalState × List Event :=
  match globalResolve cred env g with
  | (.raised e, g2, evs) => (.raised e, g2, evs)
  | (.ok _, g2, evs) =>
    match K8S_CLIENT_TYPES.lookup client_type with
    | some cls => (.ok cls, g2, evs ++ [.typedClientConstructed cls])
    | none => (.raised (.valueError (invalidClientTypeMsg client_type)), g2, evs)

/-- The three-tier resolution of get_client, acting on the connection-local
Configuration passed as client_configuration to every loader: tier 1 loads the
stored document via load_kube_config_from_dict, otherwise tier 2 attempts
load_incluster_config and, only on ConfigException, tier 3 loads the default
kubeconfig file.  Returns the possibly updated local configuration. -/
def localResolve (cred : KubernetesCredentials) (env : Env) (cfg : Configuration) :
    PyResult Unit × Configuration × List Event :=
  match cred.cluster_config with
  | some cc =>
    match dictLoadResult cc.config cc.context_name with
    | .ok _ => (.ok (), ⟨.fromDict cc.config cc.context_name⟩,
        [.loadDictLocal cc.config cc.context_name])
    | .raised e => (.raised e, cfg, [.loadDictLocal cc.config cc.context_name])
  | none =>
    match env.incluster with
    | .ok _ => (.ok (), ⟨.incluster⟩, [.loadInclusterLocal])
    | .raised .configException =>
      match env.defaultKubeconfig with
      | .ok _ => (.ok (), ⟨.kubeconfigDefault⟩, [.loadInclusterLocal, .loadKubeconfigLocal])
      | .raised e => (.raised e, cfg, [.loadInclusterLocal, .loadKubeconfigLocal])
    | .raised e => (.raised e, cfg, [.loadInclusterLocal])

/-- Outcome of the block the caller runs under "async with get_client(...) as c":
it may finish normally, raise an exception, or be cancelled. -/
inductive BodyOutcome
  | normal
  | raises (e : PyErr)
  | cancelled
deriving DecidableEq, Repr

/-- Outcome of one whole scoped acquisition as observed by the code surrounding
the caller's with-statement. -/
inductive RunOutcome
  | completed
  | error (e : PyErr)
  | cancelled
deriving DecidableEq, Repr

/-- Everything observable about one run of the scoped acquisition: the outcome,
the typed client that was handed to the caller's block (none when the block was
never entered), the final value of the connection-local configuration used for the
call, the final process-wide state, and the event trace. -/
structure GetClientResult where
  outcome : RunOutcome
  yielded : Option K8sApiClass
  localConfig : Configuration
  globalCfg : GlobalState
  trace : List Event
deriving DecidableEq, Repr

/-- Embedding of one full execution of "async with cred.get_client(client_type,
configuration) as c: body" for KubernetesCredentials.get_client.

Follows the source line by line: client_configuration is the supplied
Configuration or a fresh one (a supplied Configuration object is always truthy);
the connection-local three-tier resolution runs first and its errors propagate
before any connection object exists; then ApiClient(configuration=...) is
constructed and entered as an async context manager; inside its scope the source
runs "try: yield await self.get_resource_specific_client(...) finally: await
api_client.close()".  Because kubernetes_asyncio ApiClient is itself an async
context manager whose exit awaits self.close(), every path that constructs the
connection object calls close twice: once in the explicit finally clause after
the caller's scope is left, and once more when the async with block exits.  An
exception from get_resource_specific_client, from the caller's block, or a
cancellation of the caller's block all travel the same finally-then-exit path. -/
def KubernetesCredentials.get_client
    (cred : KubernetesCredentials) (env : Env) (client_type : String)
    (configArg : Option Configuration) (body : K8sApiClass → BodyOutcome)
    (g : GlobalState) : GetClientResult :=
  let client_configuration := configArg.getD ⟨.unloaded⟩
  match localResolve cred env client_configuration with
  | (.raised e, cfg2, evs) => ⟨.error e, none, cfg2, g, evs⟩
  | (.ok _, cfg2, evs) =>
    match cred.get_resource_specific_client env client_type g with
    | (.raised e, g2, evs2) =>
      ⟨.error e, none, cfg2, g2,
        evs ++ [.apiClientConstructed] ++ evs2 ++ [.apiClientClosed, .apiClientClosed]⟩
    | (.ok cls, g2, evs2) =>
      let outcome := match body cls with
        | .normal => RunOutcome.completed
        | .raises e => RunOutcome.error e
        | .cancelled => RunOutcome.cancelled
      ⟨outcome, some cls, cfg2, g2,
        evs ++ [.apiClientConstructed] ++ evs2 ++ [.apiClientClosed, .apiClientClosed]⟩

/-- Holds exactly when every configuration-resolution tier that this credential
and environment will exercise succeeds, i.e. when an acquisition reaches the
construction of the connection object. -/
def resolutionOk (cred : KubernetesCredentials) (env : Env) : Bool :=
  match cred.cluster_config with
  | some cc => decide (cc.context_name ∈ cc.config.contexts)
  | none =>
    match env.incluster with
    | .ok _ => true
    | .raised .configException =>
      match env.defaultKubeconfig with
      | .ok _ => true
      | .raised _ => false
    | .raised _ => false

/-! ### Concrete fixtures used by witnesses and counterexamples -/

/-- A valid one-context kubeconfig document. -/
def docA : KubeDoc := ⟨["ctx"], "ctx", "payload"⟩

/-- A cluster config whose context resolves within its document. -/
def ccA : KubernetesClusterConfig := ⟨docA, "ctx"⟩

/-- Credentials owning a stored cluster configuration. -/
def credA : KubernetesCredentials := ⟨some ccA⟩

/-- Credentials with no stored cluster configuration. -/
def credN : KubernetesCredentials := ⟨none⟩

/-- Environment where both the in-cluster and the default-file loads succeed. -/
def envOk : Env := ⟨.ok (), .ok ()⟩

/-- Environment simulating in-cluster-unavailable with a working default file. -/
def envFallback : Env := ⟨.raised .configException, .ok ()⟩

/-- Environment where the in-cluster load fails with an unrelated error. -/
def envOther : Env := ⟨.raised (.otherError 7), .ok ()⟩

/-- The initial, untouched process-wide configuration state. -/
def g0 : GlobalState := ⟨.unloaded⟩

/-- A caller block that finishes normally. -/
def bodyNormal : K8sApiClass → BodyOutcome := fun _ => .normal

/-- A caller block that raises mid-scope. -/
def bodyRaise : K8sApiClass → BodyOutcome := fun _ => .raises (.otherError 99)

/-- When every tier that will run succeeds, the local and the global resolution
take one of exactly three shapes: stored-config activation, in-cluster identity,
or the in-cluster-to-default-file fallback. -/
theorem resolution_cases (cred : KubernetesCredentials) (env : Env)
    (cfg : Configuration) (g : GlobalState) (hres : resolutionOk cred env = true) :
    (∃ cc, cred.cluster_config = some cc ∧ cc.context_name ∈ cc.config.contexts
      ∧ localResolve cred env cfg
          = (.ok (), ⟨.fromDict cc.config cc.context_name⟩,
             [.loadDictLocal cc.config cc.context_name])
      ∧ globalResolve cred env g
          = (.ok (), ⟨.fromDict cc.config cc.context_name⟩,
             [.loadDictGlobal cc.config cc.context_name]))
    ∨ (cred.cluster_config = none ∧ env.incluster = .ok ()
      ∧ localResolve cred env cfg = (.ok (), ⟨.incluster⟩, [.loadInclusterLocal])
      ∧ globalResolve cred env g = (.ok (), ⟨.incluster⟩, [.loadInclusterGlobal]))
    ∨ (cred.cluster_config = none ∧ env.incluster = .raised .configException
      ∧ env.defaultKubeconfig = .ok ()
      ∧ localResolve cred env cfg
          = (.ok (), ⟨.kubeconfigDefault⟩, [.loadInclusterLocal, .loadKubeconfigLocal])
      ∧ globalResolve cred env g
          = (.ok (), ⟨.kubeconfigDefault⟩, [.loadInclusterGlobal, .loadKubeconfigGlobal])) := by
  obtain ⟨oc⟩ := cred
  cases oc with
  | some cc =>
    left
    have hmem : cc.context_name ∈ cc.config.contexts := by
      simpa [resolutionOk] using hres
    refine ⟨cc, rfl, hmem, ?_, ?_⟩
    · simp [localResolve, dictLoadResult, hmem]
    · simp [globalResolve, KubernetesClusterConfig.configure_client, dictLoadResult, hmem]
  | none =>
    obtain ⟨inc, defk⟩ := env
    cases inc with
    | ok u =>
      cases u
      right; left
      exact ⟨rfl, rfl, by simp [localResolve], by simp [globalResolve]⟩
    | raised e =>
      cases e with
      | configException =>
        cases defk with
        | ok u =>
          cases u
          right; right
          exact ⟨rfl, rfl, rfl, by simp [localResolve], by simp [globalResolve]⟩
        | raised e2 => simp [resolutionOk] at hres
      | valueError m => simp [resolutionOk] at hres
      | otherError n => simp [resolutionOk] at hres

/-- C1 counterexample: with a stored configuration and an invalid client type, the
scoped acquisition does fail with the invalid-client-type ValueError, but the
connection object has already been constructed when the error is raised, so the
claim that acquisition fails before any connection object is constructed is false
at this input. -/
theorem C1_counterexample :
    (credA.get_client envOk "bogus" none bodyNormal g0).outcome
        = .error (.valueError (invalidClientTypeMsg "bogus"))
    ∧ Event.apiClientConstructed ∈ (credA.get_client envOk "bogus" none bodyNormal g0).trace := by
  decide

/-- C1 (amended): for every client_type outside the valid set, when configuration
resolution succeeds, scoped acquisition fails with the invalid-client-type
ValueError naming the offending value and listing the valid set, and the caller's
block never receives a client (so no caller activity happens); however the
connection object is constructed before the error is raised and is closed before
the error propagates. -/
theorem C1_invalid_client_type (cred : KubernetesCredentials) (env : Env)
    (client_type : String) (configArg : Option Configuration)
    (body : K8sApiClass → BodyOutcome) (g : GlobalState)
    (hct : K8S_CLIENT_TYPES.lookup client_type = none)
    (hres : resolutionOk cred env = true) :
    (cred.get_client env client_type configArg body g).outcome
        = .error (.valueError (invalidClientTypeMsg client_type))
    ∧ (cred.get_client env client_type configArg body g).yielded = none
    ∧ Event.apiClientConstructed ∈ (cred.get_client env client_type configArg body g).trace
    ∧ Event.apiClientClosed ∈ (cred.get_client env client_type configArg body g).trace := by
  rcases resolution_cases cred env (configArg.getD ⟨.unloaded⟩) g hres with
    ⟨cc, hsome, hmem, hloc, hglob⟩ | ⟨hnone, hinc, hloc, hglob⟩ | ⟨hnone, hinc, hdef, hloc, hglob⟩ <;>
  simp [KubernetesCredentials.get_client, hloc,
    KubernetesCredentials.get_resource_specific_client, hglob, hct]

/-- C1 witness: the amended theorem applied at a concrete credential, environment
and invalid client type. -/
theorem C1_witness :
    (K8S_CLIENT_TYPES.lookup "bogus" = none ∧ resolutionOk credA envOk = true)
    ∧ ((credA.get_client envOk "bogus" none bodyNormal g0).outcome
          = .error (.valueError (invalidClientTypeMsg "bogus"))
      ∧ (credA.get_client envOk "bogus" none bodyNormal g0).yielded = none
      ∧ Event.apiClientConstructed ∈ (credA.get_client envOk "bogus" none bodyNormal g0).trace
      ∧ Event.apiClientClosed ∈ (credA.get_client envOk "bogus" none bodyNormal g0).trace) :=
  ⟨⟨by decide, by decide⟩,
   C1_invalid_client_type credA envOk "bogus" none bodyNormal g0 (by decide) (by decide)⟩

/-- C2 counterexample: on a normal exit of the caller's block the underlying
connection object is closed twice — once by the explicit finally clause and once
by the ApiClient async-context-manager exit — so the claim that it is closed
exactly once is false at this input. -/
theorem C2_counterexample :
    (credA.get_client envOk "core" none bodyNormal g0).outcome = .completed
    ∧ (credA.get_client envOk "core" none bodyNormal g0).trace.count .apiClientClosed = 2
    ∧ (credA.get_client envOk "core" none bodyNormal g0).trace.count .apiClientClosed ≠ 1 := by
  decide

/-- C2 (amended): on every exit path of the caller's scope — normal return, an
error raised inside the caller's block, or cancellation, and likewise when the
typed-client dispatch itself raises — the connection object is closed exactly
twice rather than exactly once, and both close calls happen after everything else
in the acquisition, in particular after control flow has left the caller's scope;
the connection is never left unclosed. -/
theorem C2_close_twice (cred : KubernetesCredentials) (env : Env)
    (client_type : String) (configArg : Option Configuration)
    (body : K8sApiClass → BodyOutcome) (g : GlobalState)
    (hres : resolutionOk cred env = true) :
    ∃ p, (cred.get_client env client_type configArg body g).trace
          = p ++ [.apiClientClosed, .apiClientClosed]
      ∧ Event.apiClientClosed ∉ p
      ∧ Event.apiClientConstructed ∈ p := by
  rcases resolution_cases cred env (configArg.getD ⟨.unloaded⟩) g hres with
    ⟨cc, hsome, hmem, hloc, hglob⟩ | ⟨hnone, hinc, hloc, hglob⟩ | ⟨hnone, hinc, hdef, hloc, hglob⟩
  · cases hlk : K8S_CLIENT_TYPES.lookup client_type with
    | none =>
      exact ⟨[.loadDictLocal cc.config cc.context_name, .apiClientConstructed,
        .loadDictGlobal cc.config cc.context_name],
        by simp [KubernetesCredentials.get_client, hloc,
          KubernetesCredentials.get_resource_specific_client, hglob, hlk],
        by simp, by simp⟩
    | some cls =>
      exact ⟨[.loadDictLocal cc.config cc.context_name, .apiClientConstructed,
        .loadDictGlobal cc.config cc.context_name, .typedClientConstructed cls],
        by simp [KubernetesCredentials.get_client, hloc,
          KubernetesCredentials.get_resource_specific_client, hglob, hlk],
        by simp, by simp⟩
  · cases hlk : K8S_CLIENT_TYPES.lookup client_type with
    | none =>
      exact ⟨[.loadInclusterLocal, .apiClientConstructed, .loadInclusterGlobal],
        by simp [KubernetesCredentials.get_client, hloc,
          KubernetesCredentials.get_resource_specific_client, hglob, hlk],
        by simp, by simp⟩
    | some cls =>
      exact ⟨[.loadInclusterLocal, .apiClientConstructed, .loadInclusterGlobal,
        .typedClientConstructed cls],
        by simp [KubernetesCredentials.get_client, hloc,
          KubernetesCredentials.get_resource_specific_client, hglob, hlk],
        by simp, by simp⟩
  · cases hlk : K8S_CLIENT_TYPES.lookup client_type with
    | none =>
      exact ⟨[.loadInclusterLocal, .loadKubeconfigLocal, .apiClientConstructed,
        .loadInclusterGlobal, .loadKubeconfigGlobal],
        by simp [KubernetesCredentials.get_client, hloc,
          KubernetesCredentials.get_resource_specific_client, hglob, hlk],
        by simp, by simp⟩
    | some cls =>
      exact ⟨[.loadInclusterLocal, .loadKubeconfigLocal, .apiClientConstructed,
        .loadInclusterGlobal, .loadKubeconfigGlobal, .typedClientConstructed cls],
        by simp [KubernetesCredentials.get_client, hloc,
          KubernetesCredentials.get_resource_specific_client, hglob, hlk],
        by simp, by simp⟩

/-- C2 witness: the amended theorem applied at a concrete acquisition whose
caller block raises mid-scope. -/
theorem C2_witness :
    resolutionOk credA envOk = true
    ∧ ∃ p, (credA.get_client envOk "core" none bodyRaise g0).trace
          = p ++ [.apiClientClosed, .apiClientClosed]
      ∧ Event.apiClientClosed ∉ p
      ∧ Event.apiClientConstructed ∈ p :=
  ⟨by decide, C2_close_twice credA envOk "core" none bodyRaise g0 (by decide)⟩

/-- C3 counterexample: with a stored, resolvable configuration, one scoped
acquisition does not confine the stored document to the connection-local
configuration of that call: the inner non-scoped dispatch activates it into the
process-wide default as well (configure_client runs load_kube_config_from_dict
with no client_configuration argument), so after the run the process-wide state
has changed and the trace records the global dict load — refuting the claim that
the stored configuration is loaded for that call only, not the global default. -/
theorem C3_counterexample :
    credA.cluster_config = some ccA
    ∧ (credA.get_client envOk "core" none bodyNormal g0).globalCfg
        = ⟨.fromDict docA "ctx"⟩
    ∧ (credA.get_client envOk "core" none bodyNormal g0).globalCfg ≠ g0
    ∧ Event.loadDictGlobal docA "ctx"
        ∈ (credA.get_client envOk "core" none bodyNormal g0).trace := by
  decide

/-- C3 (amended): when a stored cluster configuration is present, scoped
acquisition loads the stored document and context name into the connection-local
configuration used for that call (the supplied one or a fresh one), and neither
the in-cluster loader nor the default-kubeconfig-file loader is ever attempted,
locally or globally — tier 1 short-circuits tiers 2 and 3; however the activation
is not call-local only: the inner non-scoped dispatch additionally activates the
stored configuration into the process-wide default state (when the stored context
resolves), as the final process-wide state and the global dict-load event show. -/
theorem C3_tier1_short_circuits (cred : KubernetesCredentials) (env : Env)
    (cc : KubernetesClusterConfig) (client_type : String)
    (configArg : Option Configuration) (body : K8sApiClass → BodyOutcome)
    (g : GlobalState) (h : cred.cluster_config = some cc) :
    Event.loadInclusterLocal ∉ (cred.get_client env client_type configArg body g).trace
    ∧ Event.loadKubeconfigLocal ∉ (cred.get_client env client_type configArg body g).trace
    ∧ Event.loadInclusterGlobal ∉ (cred.get_client env client_type configArg body g).trace
    ∧ Event.loadKubeconfigGlobal ∉ (cred.get_client env client_type configArg body g).trace
    ∧ Event.loadDictLocal cc.config cc.context_name
        ∈ (cred.get_client env client_type configArg body g).trace
    ∧ (cc.context_name ∈ cc.config.contexts →
        (cred.get_client env client_type configArg body g).localConfig
          = ⟨.fromDict cc.config cc.context_name⟩)
    ∧ (cc.context_name ∈ cc.config.contexts →
        (cred.get_client env client_type configArg body g).globalCfg
          = ⟨.fromDict cc.config cc.context_name⟩
        ∧ Event.loadDictGlobal cc.config cc.context_name
            ∈ (cred.get_client env client_type configArg body g).trace) := by
  obtain ⟨oc⟩ := cred
  cases h
  by_cases hmem : cc.context_name ∈ cc.config.contexts
  · cases hlk : K8S_CLIENT_TYPES.lookup client_type <;>
    simp [KubernetesCredentials.get_client, localResolve,
      KubernetesCredentials.get_resource_specific_client, globalResolve,
      KubernetesClusterConfig.configure_client, dictLoadResult, hmem, hlk]
  · simp [KubernetesCredentials.get_client, localResolve, dictLoadResult, hmem]

/-- C3 witness: the amended theorem applied at a concrete credential with a
stored, resolvable configuration, with the inner implications discharged. -/
theorem C3_witness :
    credA.cluster_config = some ccA
    ∧ Event.loadInclusterLocal ∉ (credA.get_client envOk "core" none bodyNormal g0).trace
    ∧ Event.loadKubeconfigLocal ∉ (credA.get_client envOk "core" none bodyNormal g0).trace
    ∧ Event.loadInclusterGlobal ∉ (credA.get_client envOk "core" none bodyNormal g0).trace
    ∧ Event.loadKubeconfigGlobal ∉ (credA.get_client envOk "core" none bodyNormal g0).trace
    ∧ Event.loadDictLocal ccA.config ccA.context_name
        ∈ (credA.get_client envOk "core" none bodyNormal g0).trace
    ∧ (credA.get_client envOk "core" none bodyNormal g0).localConfig
        = ⟨.fromDict ccA.config ccA.context_name⟩
    ∧ (credA.get_client envOk "core" none bodyNormal g0).globalCfg
        = ⟨.fromDict ccA.config ccA.context_name⟩
    ∧ Event.loadDictGlobal ccA.config ccA.context_name
        ∈ (credA.get_client envOk "core" none bodyNormal g0).trace := by
  have h := C3_tier1_short_circuits credA envOk ccA "core" none bodyNormal g0 rfl
  exact ⟨rfl, h.1, h.2.1, h.2.2.1, h.2.2.2.1, h.2.2.2.2.1, h.2.2.2.2.2.1 (by decide),
    (h.2.2.2.2.2.2 (by decide)).1, (h.2.2.2.2.2.2 (by decide)).2⟩

/-- C4: with no stored configuration, a ConfigException from the in-cluster load
makes acquisition fall back to loading the default kubeconfig file into the same
connection-local configuration, whose final value records that load when it
succeeds, and whose failure propagates; any other error from the in-cluster load
is not swallowed: it propagates to the caller unchanged and nothing further runs,
the trace ending at the failed in-cluster attempt. -/
theorem C4_tier2_fallback (cred : KubernetesCredentials) (env : Env)
    (client_type : String) (configArg : Option Configuration)
    (body : K8sApiClass → BodyOutcome) (g : GlobalState)
    (h : cred.cluster_config = none) :
    (env.incluster = .raised .configException →
      Event.loadKubeconfigLocal ∈ (cred.get_client env client_type configArg body g).trace
      ∧ (env.defaultKubeconfig = .ok () →
          (cred.get_client env client_type configArg body g).localConfig
            = ⟨.kubeconfigDefault⟩)
      ∧ (∀ e2, env.defaultKubeconfig = .raised e2 →
          (cred.get_client env client_type configArg body g).outcome = .error e2))
    ∧ (∀ e, env.incluster = .raised e → e ≠ .configException →
        (cred.get_client env client_type configArg body g).outcome = .error e
        ∧ (cred.get_client env client_type configArg body g).trace
            = [.loadInclusterLocal]) := by
  obtain ⟨oc⟩ := cred
  cases h
  obtain ⟨inc, defk⟩ := env
  constructor
  · intro hinc
    cases hinc
    cases defk with
    | ok u =>
      cases u
      refine ⟨?_, fun _ => ?_, ?_⟩
      · cases hlk : K8S_CLIENT_TYPES.lookup client_type <;>
        simp [KubernetesCredentials.get_client, localResolve,
          KubernetesCredentials.get_resource_specific_client, globalResolve, hlk]
      · cases hlk : K8S_CLIENT_TYPES.lookup client_type <;>
        simp [KubernetesCredentials.get_client, localResolve,
          KubernetesCredentials.get_resource_specific_client, globalResolve, hlk]
      · intro e2 h2
        cases h2
    | raised e2 =>
      refine ⟨?_, ?_, ?_⟩
      · simp [KubernetesCredentials.get_client, localResolve]
      · intro h2; cases h2
      · intro e3 h3
        cases h3
        simp [KubernetesCredentials.get_client, localResolve]
  · intro e hinc hne
    cases hinc
    cases e with
    | configException => exact absurd rfl hne
    | valueError m =>
      constructor <;> simp [KubernetesCredentials.get_client, localResolve]
    | otherError n =>
      constructor <;> simp [KubernetesCredentials.get_client, localResolve]

/-- C4 witness: the theorem applied twice at concrete inputs — once in an
environment where the in-cluster load raises ConfigException and the fallback
loads the default file, once in an environment where it raises an unrelated error
that propagates unchanged. -/
theorem C4_witness :
    (credN.cluster_config = none
      ∧ Event.loadKubeconfigLocal ∈ (credN.get_client envFallback "core" none bodyNormal g0).trace
      ∧ (credN.get_client envFallback "core" none bodyNormal g0).localConfig
          = ⟨.kubeconfigDefault⟩)
    ∧ ((credN.get_client envOther "core" none bodyNormal g0).outcome
          = .error (.otherError 7)
      ∧ (credN.get_client envOther "core" none bodyNormal g0).trace
          = [.loadInclusterLocal]) := by
  have h1 := C4_tier2_fallback credN envFallback "core" none bodyNormal g0 rfl
  have h2 := C4_tier2_fallback credN envOther "core" none bodyNormal g0 rfl
  exact ⟨⟨rfl, (h1.1 rfl).1, (h1.1 rfl).2.1 rfl⟩, h2.2 (.otherError 7) rfl (by decide)⟩

/-- C5 counterexample: the empty string is an override absent from this file's
context-name set, yet from_file does not fail — the Python truthiness test
(if context_name:) treats an empty-string override like no override and returns a
store for the current context, so the claim that construction fails for every
absent override is false at this input. -/
theorem C5_counterexample :
    ¬ ("" ∈ (KubeDoc.mk ["alpha"] "alpha" "").contexts)
    ∧ KubernetesClusterConfig.from_file ⟨["alpha"], "alpha", ""⟩ (some "")
        = .ok ⟨⟨["alpha"], "alpha", ""⟩, "alpha"⟩ := by
  decide

/-- C5 (amended): for every non-empty override C absent from the parsed
context-name set, from_file fails with the ValueError naming the requested
context and listing exactly the context names present in the file (as a set,
modelled by the deduplicated list), and no store is returned. -/
theorem C5_unknown_context (d : KubeDoc) (c : String) (hne : c ≠ "")
    (hmem : c ∉ d.contexts) :
    KubernetesClusterConfig.from_file d (some c)
      = .raised (.valueError (contextNotFoundMsg c d.contexts.dedup)) := by
  have hmem2 : c ∉ d.contexts.dedup := by simpa using hmem
  simp [KubernetesClusterConfig.from_file, hne, hmem2]

/-- C5 witness: the amended theorem applied at a concrete file and a concrete
absent override. -/
theorem C5_witness :
    ("gamma" ≠ "" ∧ "gamma" ∉ (KubeDoc.mk ["alpha", "beta"] "alpha" "").contexts)
    ∧ KubernetesClusterConfig.from_file ⟨["alpha", "beta"], "alpha", ""⟩ (some "gamma")
        = .raised (.valueError
            (contextNotFoundMsg "gamma" (KubeDoc.mk ["alpha", "beta"] "alpha" "").contexts.dedup)) :=
  ⟨⟨by decide, by decide⟩,
   C5_unknown_context ⟨["alpha", "beta"], "alpha", ""⟩ "gamma" (by decide) (by decide)⟩

/-- C6 counterexample: the empty string is a context name present in this
document, yet constructing with override the empty string yields a store whose
context name is the current-context marker, not the override — the truthiness
test discards an empty-string override — so the claim is false at this input. -/
theorem C6_counterexample :
    ("" ∈ (KubeDoc.mk ["", "alpha"] "alpha" "").contexts)
    ∧ KubernetesClusterConfig.from_file ⟨["", "alpha"], "alpha", ""⟩ (some "")
        = .ok ⟨⟨["", "alpha"], "alpha", ""⟩, "alpha"⟩
    ∧ ("alpha" : String) ≠ "" := by
  decide

/-- C6 (amended): for every valid document D and every non-empty context name C
present in D, constructing from file with override C succeeds and yields a store
whose context name is C and whose document is the entire parsed content D. -/
theorem C6_from_file_override (d : KubeDoc) (c : String) (hne : c ≠ "")
    (hmem : c ∈ d.contexts) :
    KubernetesClusterConfig.from_file d (some c) = .ok ⟨d, c⟩ := by
  have hmem2 : c ∈ d.contexts.dedup := by simpa using hmem
  simp [KubernetesClusterConfig.from_file, hne, hmem2]

/-- C6 witness: the amended theorem applied at a concrete document and a
concrete present override. -/
theorem C6_witness :
    ("beta" ≠ "" ∧ "beta" ∈ (KubeDoc.mk ["alpha", "beta"] "alpha" "x").contexts)
    ∧ KubernetesClusterConfig.from_file ⟨["alpha", "beta"], "alpha", "x"⟩ (some "beta")
        = .ok ⟨⟨["alpha", "beta"], "alpha", "x"⟩, "beta"⟩ :=
  ⟨⟨by decide, by decide⟩,
   C6_from_file_override ⟨["alpha", "beta"], "alpha", "x"⟩ "beta" (by decide) (by decide)⟩

/-- C7: constructing a store from file with no context override yields a store
for the entire document whose context name is the document's current-context
marker. -/
theorem C7_from_file_default (d : KubeDoc) :
    KubernetesClusterConfig.from_file d none = .ok ⟨d, d.currentContext⟩ := by
  simp [KubernetesClusterConfig.from_file]

/-- C8: a document provided as a YAML string and the same document provided as
an already-parsed mapping pass through the parse_yaml_config validator to equal
stored document content: the string input is parsed before storage and the
mapping input is stored as-is. -/
theorem C8_roundtrip (d : KubeDoc) :
    KubernetesClusterConfig.parse_yaml_config (.str (yaml_dump d))
      = KubernetesClusterConfig.parse_yaml_config (.mapping d) := by
  simp [KubernetesClusterConfig.parse_yaml_config, yaml_safe_load_yaml_dump]

/-- C9 counterexample: a store whose context name does not resolve within its
document makes get_api_client raise the kubernetes ConfigException instead of
returning a connection object, so the claim that it returns a new connection
object for every store on which it is called is false at this input; the
process-wide state is still left unchanged on this failing path. -/
theorem C9_counterexample :
    ((KubernetesClusterConfig.mk ⟨["alpha"], "alpha", ""⟩ "missing").get_api_client g0).1
        = .raised .configException
    ∧ ((KubernetesClusterConfig.mk ⟨["alpha"], "alpha", ""⟩ "missing").get_api_client g0).2
        = g0 := by
  decide

/-- C9 (amended): for every store whose context name resolves within its stored
document, get_api_client returns a new connection object bound to the stored
document and context name, and for every store the process-wide configuration
state is left unchanged. -/
theorem C9_get_api_client (cc : KubernetesClusterConfig) (g : GlobalState)
    (hmem : cc.context_name ∈ cc.config.contexts) :
    (cc.get_api_client g).1 = .ok ⟨.fromDict cc.config cc.context_name⟩
    ∧ (cc.get_api_client g).2 = g := by
  constructor
  · simp [KubernetesClusterConfig.get_api_client, new_client_from_config_dict,
      dictLoadResult, hmem]
  · rfl

/-- C9 witness: the amended theorem applied at a concrete resolvable store. -/
theorem C9_witness :
    ccA.context_name ∈ ccA.config.contexts
    ∧ (ccA.get_api_client g0).1 = .ok ⟨.fromDict ccA.config ccA.context_name⟩
    ∧ (ccA.get_api_client g0).2 = g0 :=
  ⟨by decide, C9_get_api_client ccA g0 (by decide)⟩

/-- C10: in the non-scoped variant, an invalid client type does not preempt
configuration resolution: the three-tier resolution runs to completion first —
activating the stored configuration, or performing the in-cluster/default-file
load, into the process-wide configuration state — and only then is the
invalid-client-type ValueError raised, as the full result tuples show. -/
theorem C10_nonscoped_resolution_before_error (cred : KubernetesCredentials)
    (env : Env) (client_type : String) (g : GlobalState)
    (hct : K8S_CLIENT_TYPES.lookup client_type = none) :
    (∀ cc, cred.cluster_config = some cc → cc.context_name ∈ cc.config.contexts →
      cred.get_resource_specific_client env client_type g
        = (.raised (.valueError (invalidClientTypeMsg client_type)),
           ⟨.fromDict cc.config cc.context_name⟩,
           [.loadDictGlobal cc.config cc.context_name]))
    ∧ (cred.cluster_config = none → env.incluster = .raised .configException →
        env.defaultKubeconfig = .ok () →
      cred.get_resource_specific_client env client_type g
        = (.raised (.valueError (invalidClientTypeMsg client_type)),
           ⟨.kubeconfigDefault⟩,
           [.loadInclusterGlobal, .loadKubeconfigGlobal])) := by
  constructor
  · intro cc hsome hmem
    simp [KubernetesCredentials.get_resource_specific_client, globalResolve, hsome,
      KubernetesClusterConfig.configure_client, dictLoadResult, hmem, hct]
  · intro hnone hinc hdef
    simp [KubernetesCredentials.get_resource_specific_client, globalResolve, hnone,
      hinc, hdef, hct]

/-- C10 witness: the theorem applied at concrete inputs, once with a stored
configuration and once on the in-cluster-to-default-file fallback path. -/
theorem C10_witness :
    credA.get_resource_specific_client envOk "bogus" g0
      = (.raised (.valueError (invalidClientTypeMsg "bogus")),
         ⟨.fromDict ccA.config ccA.context_name⟩,
         [.loadDictGlobal ccA.config ccA.context_name])
    ∧ credN.get_resource_specific_client envFallback "bogus" g0
      = (.raised (.valueError (invalidClientTypeMsg "bogus")),
         ⟨.kubeconfigDefault⟩,
         [.loadInclusterGlobal, .loadKubeconfigGlobal]) := by
  have h1 := C10_nonscoped_resolution_before_error credA envOk "bogus" g0 (by decide)
  have h2 := C10_nonscoped_resolution_before_error credN envFallback "bogus" g0 (by decide)
  exact ⟨h1.1 ccA rfl (by decide), h2.2 rfl rfl rfl⟩
